import Mathlib

/-!
Verification of `desk_viewer.py` (Desk Items Viewer).

The program is a single-file desktop tool: an in-memory list of `DeskItem`
records is loaded from / saved to a JSON file, mutated by an `add item`
action, refreshed by a periodic modification-time poll, and summarised into
a chat prompt for an external assistant.

The embedding below models the JSON layer at the level of JSON values
(`JsonVal`): CPython's `json.dump` / `json.load` round-trip finite floats,
strings, lists and dicts exactly, so the text layer is abstracted away.
Python `float` values are modelled as `Rat` (no NaN/inf literals; none of
the verified properties depend on non-finite values), and the file system
as a map from path strings to entries carrying content and an mtime.
-/

set_option autoImplicit false

-- The Batteries `Rat` operations are marked irreducible, which blocks
-- `decide`-style evaluation of concrete rationals; restore the default
-- reducibility for this development (proofs still pass the kernel with the
-- standard axioms only).
set_option allowUnsafeReducibility true
attribute [local semireducible] Rat.mul Rat.div Rat.add Rat.sub Rat.inv Rat.neg Rat.blt

namespace DeskViewer

/-- A JSON value, as produced by `json.load`.  Objects keep their fields in
order; Python dict lookup with duplicate keys keeps the last one, which
`jget` mirrors. -/
inductive JsonVal where
  | null
  | bool (b : Bool)
  | num (q : Rat)
  | str (s : String)
  | arr (elems : List JsonVal)
  | obj (fields : List (String × JsonVal))

/-- Python `dict.get(k)` on a dict built from a JSON object: last binding of
the key wins, absent key gives `none`. -/
def jget (fields : List (String × JsonVal)) (k : String) : Option JsonVal :=
  ((fields.filter (fun p => p.1 = k)).getLast?).map (fun p => p.2)

/-- Python `dict.get(k, d)` with a default. -/
def jgetD (fields : List (String × JsonVal)) (k : String) (d : JsonVal) : JsonVal :=
  (jget fields k).getD d

/-- Python `str.strip()`: drop surrounding whitespace. -/
def pyStrip (s : String) : String :=
  ⟨((s.data.dropWhile Char.isWhitespace).reverse.dropWhile Char.isWhitespace).reverse⟩

/-- Python `str.lower()` (ASCII range; the classified error substrings are
all ASCII). -/
def pyLower (s : String) : String := ⟨s.data.map Char.toLower⟩

/-- Digit list to natural number, most significant first. -/
def digitsToNat (l : List Char) : Nat :=
  l.foldl (fun a c => a * 10 + (c.toNat - 48)) 0

/-- Parse an unsigned decimal mantissa `digits [. digits]` or `. digits`,
returning its value and the unconsumed rest.  Fails when no digit at all is
present (as Python `float` does). -/
def parseMantissa (l : List Char) : Option (Rat × List Char) :=
  let ip := l.takeWhile Char.isDigit
  let r1 := l.dropWhile Char.isDigit
  match r1 with
  | '.' :: r2 =>
    let fp := r2.takeWhile Char.isDigit
    let r3 := r2.dropWhile Char.isDigit
    if ip.isEmpty && fp.isEmpty then none
    else some ((digitsToNat ip : Rat) + (digitsToNat fp : Rat) / ((10 : Rat) ^ fp.length), r3)
  | _ => if ip.isEmpty then none else some ((digitsToNat ip : Rat), r1)

/-- Parse an optional exponent part `(e|E) [sign] digits`; when no `e`/`E`
is present the exponent is `0` and nothing is consumed. -/
def parseExpPart (l : List Char) : Option (Int × List Char) :=
  match l with
  | 'e' :: r | 'E' :: r =>
    let (neg, r1) :=
      match r with
      | '-' :: r2 => (true, r2)
      | '+' :: r2 => (false, r2)
      | _ => (false, r)
    let ds := r1.takeWhile Char.isDigit
    let rest := r1.dropWhile Char.isDigit
    if ds.isEmpty then none
    else some ((if neg then -(digitsToNat ds : Int) else (digitsToNat ds : Int)), rest)
  | _ => some (0, l)

/-- Python `float(s)` on a string: strip surrounding whitespace, optional
sign, decimal mantissa, optional exponent; `none` models `ValueError`.
Non-finite literals (`inf`, `nan`) and underscore separators are not
modelled; no verified property depends on them. -/
def parseFloat (s : String) : Option Rat :=
  let l := ((s.toList.dropWhile Char.isWhitespace).reverse.dropWhile Char.isWhitespace).reverse
  let (neg, l1) :=
    match l with
    | '-' :: r => (true, r)
    | '+' :: r => (false, r)
    | _ => (false, l)
  match parseMantissa l1 with
  | none => none
  | some (m, r) =>
    match parseExpPart r with
    | none => none
    | some (e, rest) =>
      if rest.isEmpty then
        let v := if 0 ≤ e then m * (10 : Rat) ^ e.toNat else m / (10 : Rat) ^ (-e).toNat
        some (if neg then -v else v)
      else none

/-- Python `float(v)` on a JSON value: numbers are returned as they are,
booleans become `0`/`1`, strings go through the literal parser, everything
else (`None`, lists, dicts) raises `TypeError`, modelled as `none`. -/
def pyFloat : JsonVal → Option Rat
  | .num q => some q
  | .bool b => some (if b then 1 else 0)
  | .str s => parseFloat s
  | .null => none
  | .arr _ => none
  | .obj _ => none

/-- Python `(data.get(k) or "")` for a field expected to hold a string:
an absent key and every falsy value (`None`, `""`, `0`, `False`, `[]`,
`{}`) give `""`; a non-empty string is returned as it is.  A truthy
non-string value would be stored untouched by the Python code; our typed
model cannot hold it, so it is mapped to `none` (no verified property
evaluates such a field). -/
def getStrOrEmpty (fields : List (String × JsonVal)) (k : String) : Option String :=
  match jget fields k with
  | none => some ""
  | some .null => some ""
  | some (.str s) => some s
  | some (.bool false) => some ""
  | some (.bool true) => none
  | some (.num q) => if q = 0 then some "" else none
  | some (.arr l) => if l.isEmpty then some "" else none
  | some (.obj l) => if l.isEmpty then some "" else none

/-- The sole domain entity of the program (`@dataclass DeskItem`). -/
structure DeskItem where
  timestamp : String
  name : String
  x : Rat
  y : Rat
  color : String
  deriving Repr, DecidableEq

/-- `DeskItem.from_dict`: defensive defaults for the string fields, Python
`float` conversion for `x`/`y` with default `0`; `none` models an exception
escaping the constructor call. -/
def DeskItem.from_dict (fields : List (String × JsonVal)) : Option DeskItem := do
  let ts ← getStrOrEmpty fields "timestamp"
  let nm ← getStrOrEmpty fields "name"
  let xv ← pyFloat (jgetD fields "x" (.num 0))
  let yv ← pyFloat (jgetD fields "y" (.num 0))
  let col ← getStrOrEmpty fields "color"
  pure ⟨ts, nm, xv, yv, col⟩

/-- `DeskItem.to_dict` (`dataclasses.asdict`): field order of the class. -/
def DeskItem.to_dict (it : DeskItem) : List (String × JsonVal) :=
  [("timestamp", .str it.timestamp), ("name", .str it.name),
   ("x", .num it.x), ("y", .num it.y), ("color", .str it.color)]

/-- Content of a file on disk, as seen through `json.load`: either a valid
JSON document or text that makes `json.load` raise. -/
inductive FileContent where
  | json (v : JsonVal)
  | malformed

/-- A file: its parsed content together with its modification time
(`st_mtime`, a Python float, modelled as `Rat`). -/
structure FileEntry where
  content : FileContent
  mtime : Rat

/-- The file system: a map from path strings to files. -/
def FS : Type := String → Option FileEntry

/-- The mutable state of `DeskApp` relevant to the item store: the item
collection, the poll baseline `last_loaded_mtime`, and the `path_var` /
`status_var` text variables. -/
structure AppState where
  items : List DeskItem
  last_loaded_mtime : Option Rat
  path_var : String
  status_var : String
  deriving Repr, DecidableEq

/-- Python `for d in data: DeskItem.from_dict(d)` over the value returned by
`json.load`.  Iterating a JSON array converts each element (an element that
is not an object makes `from_dict`'s attribute access raise); iterating an
empty dict or empty string performs no iterations; iterating anything else
raises (`TypeError`, or a conversion error on the first key/character).
`none` models an exception escaping the comprehension. -/
def convertList : List JsonVal → Option (List DeskItem)
  | [] => some []
  | d :: rest =>
    match d with
    | .obj fields =>
      match DeskItem.from_dict fields with
      | none => none
      | some it => (convertList rest).map (fun l => it :: l)
    | _ => none

/-- See `convertList`: dispatch on the shape of the loaded document. -/
def convertData : JsonVal → Option (List DeskItem)
  | .arr elems => convertList elems
  | .obj [] => some []
  | .str "" => some []
  | _ => none

/-- What `DeskApp._load_from_path` did. -/
inductive LoadOutcome where
  | missing
  | parseFailed
  | convRaised
  | loaded (n : Nat)
  deriving Repr, DecidableEq

/-- Result of `DeskApp._load_from_path`: the state after the call, the
outcome, the modal error notice shown (`messagebox.showerror` body), and
whether an exception escaped the method. -/
structure LoadResult where
  state : AppState
  outcome : LoadOutcome
  modal : Option String
  raised : Bool
  deriving Repr, DecidableEq

/-- `DeskApp._load_from_path`.  The path missing and the `json.load`
failure are handled inside the method (modal only when `show_errors`); the
element-conversion comprehension sits outside the `try`, so a conversion
error escapes the method with the state untouched.  On success the items
are replaced wholesale and `last_loaded_mtime` is set from a fresh `stat`
of the just-read file (which exists, so the `except OSError` arm is not
reachable in this model). -/
def loadFromPath (fs : FS) (st : AppState) (show_errors show_status : Bool) : LoadResult :=
  match fs st.path_var with
  | none =>
    { state := st, outcome := .missing,
      modal := if show_errors then some ("Cannot find " ++ st.path_var) else none,
      raised := false }
  | some entry =>
    match entry.content with
    | .malformed =>
      { state := st, outcome := .parseFailed,
        modal := if show_errors then some "Cannot parse file" else none,
        raised := false }
    | .json v =>
      match convertData v with
      | none => { state := st, outcome := .convRaised, modal := none, raised := true }
      | some its =>
        { state :=
            { st with
              items := its,
              last_loaded_mtime := some entry.mtime,
              status_var :=
                if show_status then
                  "Loaded " ++ toString its.length ++ " items from " ++ st.path_var
                else st.status_var },
          outcome := .loaded its.length, modal := none, raised := false }

/-- `DeskApp._save_items`: serialize the collection in order, overwrite the
file at `path_var` (the write stamps the new modification time `newMtime`),
then set `last_loaded_mtime` from a `stat` of the just-written file. -/
def saveItems (fs : FS) (st : AppState) (newMtime : Rat) : FS × AppState :=
  let data : JsonVal := .arr (st.items.map (fun it => .obj it.to_dict))
  let fs2 : FS := fun p =>
    if p = st.path_var then some ⟨.json data, newMtime⟩ else fs p
  (fs2, { st with
          last_loaded_mtime := some newMtime,
          status_var := "Saved to " ++ st.path_var })

/-- What `DeskApp._poll_file_change` did in one tick. -/
inductive PollOutcome where
  | unchanged
  | reloaded (lo : LoadOutcome)
  deriving Repr, DecidableEq

/-- `DeskApp._poll_file_change` (one timer tick): a missing file is ignored;
an existing file triggers an inline reload (with `show_errors=False`,
`show_status=True`) when there is no baseline or the observed mtime is
strictly later than the baseline.  The whole body runs inside a catch-all
`try`, so an exception escaping the inline reload is swallowed with the
state as the reload left it. -/
def pollFileChange (fs : FS) (st : AppState) : AppState × PollOutcome :=
  match fs st.path_var with
  | none => (st, .unchanged)
  | some entry =>
    match st.last_loaded_mtime with
    | none =>
      let r := loadFromPath fs st false true
      (r.state, .reloaded r.outcome)
    | some m =>
      if m < entry.mtime then
        let r := loadFromPath fs st false true
        (r.state, .reloaded r.outcome)
      else (st, .unchanged)

/-- How `DeskApp._add_item` ended: which modal error was shown, if any. -/
inductive AddOutcome where
  | ok
  | formatError
  | missingName
  | coordError
  deriving Repr, DecidableEq

/-- `DeskApp._add_item`: build the item from the entry fields (Python
`float` on the coordinate texts; a `ValueError` is caught and shown as the
format modal), then reject an empty name, then reject out-of-range
coordinates; only then append to the collection.  `now` stands for
`datetime.now().isoformat()`, used when the time field is blank. -/
def addItem (st : AppState) (now time_var name_var x_var y_var color_var : String) :
    AppState × AddOutcome :=
  match parseFloat x_var, parseFloat y_var with
  | some xv, some yv =>
    let item : DeskItem :=
      { timestamp := if pyStrip time_var = "" then now else pyStrip time_var,
        name := pyStrip name_var, x := xv, y := yv, color := pyStrip color_var }
    if item.name = "" then (st, .missingName)
    else if 0 ≤ item.x ∧ item.x ≤ 1 ∧ 0 ≤ item.y ∧ item.y ≤ 1 then
      ({ st with items := st.items ++ [item], status_var := "Added: " ++ item.name }, .ok)
    else (st, .coordError)
  | _, _ => (st, .formatError)

/-- Floor of a rational as an integer (`Int.fdiv` rounds toward `-∞`). -/
def ratFloor (q : Rat) : Int := q.num.fdiv q.den

/-- Round to the nearest integer, ties to even — the rounding CPython's
fixed-point float formatting applies. -/
def roundHalfEven (q : Rat) : Int :=
  let f := ratFloor q
  let frac := q - (f : Rat)
  if frac < 1 / 2 then f
  else if 1 / 2 < frac then f + 1
  else if f % 2 = 0 then f else f + 1

/-- Left-pad a fractional part below 1000 to three digits. -/
def pad3 (n : Nat) : String :=
  if n < 10 then "00" ++ toString n
  else if n < 100 then "0" ++ toString n
  else toString n

/-- Python `f"{q:.3f}"` on a (finite, modelled) float: three decimals,
half-even rounding.  The sign of a negative zero is not modelled. -/
def format3 (q : Rat) : String :=
  let scaled := roundHalfEven (q * 1000)
  let a := scaled.natAbs
  (if scaled < 0 then "-" else "") ++ toString (a / 1000) ++ "." ++ pad3 (a % 1000)

/-- One line of the item enumeration in `DeskApp._build_messages`
(`enumerate(self.items, start=1)` supplies `idx`); an empty color prints as
`unknown` (Python `or`). -/
def itemLine (idx : Nat) (it : DeskItem) : String :=
  toString idx ++ ". " ++ it.name ++ " | color: " ++
    (if it.color = "" then "unknown" else it.color) ++
    " | pos: (" ++ format3 it.x ++ ", " ++ format3 it.y ++ ") | placed: " ++ it.timestamp

/-- Python `"\n".join`. -/
def joinLines : List String → String
  | [] => ""
  | [s] => s
  | s :: rest => s ++ "\n" ++ joinLines rest

/-- The `items_desc` block of `DeskApp._build_messages`. -/
def itemsDesc (items : List DeskItem) : String :=
  match items with
  | [] => "No items."
  | _ => joinLines ((items.enumFrom 1).map (fun p => itemLine p.1 p.2))

/-- The `user_content` string of `DeskApp._build_messages`. -/
def userContent (items : List DeskItem) (question : String) : String :=
  "Current desk items (coords 0-1, origin top-left):\n" ++ itemsDesc items ++
    "\n\nQuestion: " ++ question

/-- A chat message, role-tagged. -/
structure Message where
  role : String
  content : String
  deriving Repr, DecidableEq

/-- The fixed system instruction of `DeskApp._build_messages`. -/
def systemContent : String :=
  "You are a concise assistant. Answer only the user's question using the desk items context. Do not add extra commentary."

/-- `DeskApp._build_messages`. -/
def buildMessages (items : List DeskItem) (question : String) : List Message :=
  [⟨"system", systemContent⟩, ⟨"user", userContent items question⟩]

/-- Does `pat` occur as a contiguous run at the head of `hay`? -/
def leadsWith : List Char → List Char → Bool
  | [], _ => true
  | _ :: _, [] => false
  | p :: ps, c :: cs => p = c && leadsWith ps cs

/-- Does `pat` occur as a contiguous run anywhere in `hay`?  Models Python
`pat in hay` on strings. -/
def containsSub (pat : List Char) : List Char → Bool
  | [] => leadsWith pat []
  | c :: cs => leadsWith pat (c :: cs) || containsSub pat cs

/-- Python `pat in hay` for strings. -/
def pyIn (pat hay : String) : Bool := containsSub pat.toList hay.toList

/-- The canned quota message of `DeskApp._friendly_error`. -/
def quotaMsg : String :=
  "API quota exceeded or unavailable. Check billing or use another API key."

/-- The canned auth message of `DeskApp._friendly_error`. -/
def authMsg : String :=
  "API key invalid or missing. Check apu_key.txt or OPENAI_API_KEY."

/-- `DeskApp._friendly_error`: lowercase the message, then best-effort
substring classification; unmatched messages pass through unchanged. -/
def friendlyError (msg : String) : String :=
  let lower := pyLower msg
  if pyIn "insufficient_quota" lower || pyIn "quota" lower then quotaMsg
  else if pyIn "401" lower || pyIn "invalid_api_key" lower then authMsg
  else msg

/-- Result of one `DeskApp._send_question` invocation: whether the external
chat capability was called, the texts appended to the transcript, the modal
error shown, and the status line set. -/
structure SendResult where
  askInvoked : Bool
  chatAppends : List String
  modal : Option String
  status : Option String
  deriving Repr, DecidableEq

/-- The modal body shown by `_send_question` when no client is configured. -/
def disabledMsg : String :=
  "openai package or OPENAI_API_KEY missing. Please install and set an API key."

/-- The canned transcript line for an empty collection. -/
def noItemsReply : String := "Assistant: I don't see any items yet.\n\n"

/-- `DeskApp._send_question`.  `hasClient` is whether `self.client` is not
`None`; `questionRaw` is the text-box content (stripped, as in the code);
`askFn` stands for the external `chat.completions.create` call, `.error`
being a raised exception rendered as its message string. -/
def sendQuestion (hasClient : Bool) (items : List DeskItem) (questionRaw : String)
    (askFn : List Message → Except String String) : SendResult :=
  if !hasClient then
    { askInvoked := false, chatAppends := [], modal := some disabledMsg, status := none }
  else
    let question := pyStrip questionRaw
    if question = "" then
      { askInvoked := false, chatAppends := [], modal := none,
        status := some "Enter a question first." }
    else
      let youLine := "You: " ++ question ++ "\n"
      if items.isEmpty then
        { askInvoked := false, chatAppends := [youLine, noItemsReply],
          modal := none, status := none }
      else
        match askFn (buildMessages items question) with
        | .error exc =>
          { askInvoked := true,
            chatAppends := [youLine, "Assistant: (error) " ++ friendlyError exc ++ "\n\n"],
            modal := none, status := some "OpenAI call failed" }
        | .ok content =>
          { askInvoked := true,
            chatAppends := [youLine, "Assistant: " ++ pyStrip content ++ "\n\n"],
            modal := none, status := some "Response received." }

/-- The key-resolution core of `DeskApp._init_openai_client`: the
environment variable `OPENAI_API_KEY` when it holds a non-empty value,
otherwise the whole text of `apu_key.txt` stripped of surrounding
whitespace when that is non-empty (`fileText = none` when the file is
absent or unreadable); `none` means the client stays `None` and the
assistant is disabled. -/
def resolveKey (envKey : Option String) (fileText : Option String) : Option String :=
  let env0 := match envKey with
    | some k => if k = "" then none else some k
    | none => none
  match env0 with
  | some k => some k
  | none =>
    match fileText with
    | some txt => if pyStrip txt = "" then none else some (pyStrip txt)
    | none => none

/-- Modelled from the spec: "the first line of a fixed sidecar text file
adjacent to the program, trimmed of whitespace" — the reading the spec
describes for the key file, to be compared with what the code computes. -/
def specFileKey (txt : String) : Option String :=
  let first := pyStrip ⟨txt.data.takeWhile (fun c => c ≠ '\n')⟩
  if first = "" then none else some first

example : parseFloat "1.5" = some (3 / 2 : Rat) := by decide
example : parseFloat "-0.1" = some (-(1 / 10) : Rat) := by decide
example : parseFloat "abc" = none := by decide
example : parseFloat " 2e3 " = some (2000 : Rat) := by decide
example : parseFloat "" = none := by decide
example : (DeskItem.from_dict [("name", .str "pen"), ("x", .str "abc")]) = none := by decide
example : (DeskItem.from_dict [("name", .str "pen"), ("x", .num (1/2))]) =
    some ⟨"", "pen", 1/2, 0, ""⟩ := by decide

/-- Deserializing a serialized item recovers it exactly: the string fields
come back through the `or ""` defaults unchanged (an empty string maps to
an empty string) and the numeric fields through `float` unchanged. -/
theorem from_dict_to_dict (it : DeskItem) : DeskItem.from_dict it.to_dict = some it := rfl

/-- Element-wise round-trip of the whole serialized array. -/
theorem convertList_to_dict (items : List DeskItem) :
    convertList (items.map (fun it => .obj it.to_dict)) = some items := by
  induction items with
  | nil => rfl
  | cons it rest ih =>
    simp only [List.map_cons, convertList, from_dict_to_dict, ih]
    rfl

/-- C1: saving the collection to a path and then loading from that path
yields an equal collection — insertion order and every field value are
preserved exactly, for every collection, file system, and written mtime. -/
theorem save_load_round_trip (fs : FS) (st : AppState) (m : Rat) (se ss : Bool) :
    (loadFromPath (saveItems fs st m).1 (saveItems fs st m).2 se ss).state.items = st.items ∧
    (loadFromPath (saveItems fs st m).1 (saveItems fs st m).2 se ss).outcome
      = .loaded st.items.length := by
  simp only [saveItems, loadFromPath]
  simp [convertData, convertList_to_dict]

/-- A file whose content is a well-formed JSON array of objects but whose
element has a non-numeric `x`. -/
def badCoordFS : FS := fun p =>
  if p = "items.json" then
    some ⟨.json (.arr [.obj [("name", .str "pen"), ("x", .str "abc")]]), 1⟩
  else none

/-- C2: loading an existing, well-formed JSON array in which an element's
`x` is the non-numeric string "abc" makes the conversion raise, and —
because the conversion comprehension sits outside the `try` in
`_load_from_path` — no modal notice is shown and the exception escapes the
method (propagating out of the Reload-button handler); the state is left
untouched.  This contradicts the claimed catch-and-notify behaviour. -/
theorem load_malformed_coord_escapes :
    parseFloat "abc" = none ∧
    (loadFromPath badCoordFS ⟨[], none, "items.json", ""⟩ true true).raised = true ∧
    (loadFromPath badCoordFS ⟨[], none, "items.json", ""⟩ true true).modal = none ∧
    (loadFromPath badCoordFS ⟨[], none, "items.json", ""⟩ true true).state
      = ⟨[], none, "items.json", ""⟩ := by
  decide

/-- C3: `_add_item` rejects a coordinate text that does not parse as a
number, an empty (stripped) name, and a parsed coordinate outside `[0, 1]`
(such as `1.5` and `-0.1`), and on every such rejection the state — in
particular the collection — is exactly what it was before. -/
theorem add_item_reject_atomic (st : AppState) (now tv nv xv yv cv : String)
    (h : parseFloat xv = none ∨ parseFloat yv = none ∨ pyStrip nv = "" ∨
      (∃ q, parseFloat xv = some q ∧ (q < 0 ∨ 1 < q)) ∨
      (∃ q, parseFloat yv = some q ∧ (q < 0 ∨ 1 < q))) :
    (addItem st now tv nv xv yv cv).2 ≠ .ok ∧ (addItem st now tv nv xv yv cv).1 = st := by
  cases hx : parseFloat xv with
  | none => exact ⟨by simp [addItem, hx], by simp [addItem, hx]⟩
  | some qx =>
    cases hy : parseFloat yv with
    | none => exact ⟨by simp [addItem, hx, hy], by simp [addItem, hx, hy]⟩
    | some qy =>
      by_cases hn : pyStrip nv = ""
      · constructor <;> simp [addItem, hx, hy, hn]
      · have hrange : ¬ (0 ≤ qx ∧ qx ≤ 1 ∧ 0 ≤ qy ∧ qy ≤ 1) := by
          rcases h with h | h | h | ⟨q, hq, hlt⟩ | ⟨q, hq, hlt⟩
          · simp [hx] at h
          · simp [hy] at h
          · exact absurd h hn
          · rw [hx] at hq; injection hq with e; subst e
            rintro ⟨h1, h2, _, _⟩; rcases hlt with hlt | hlt <;> linarith
          · rw [hy] at hq; injection hq with e; subst e
            rintro ⟨_, _, h3, h4⟩; rcases hlt with hlt | hlt <;> linarith
        constructor <;> simp [addItem, hx, hy, hn, hrange]

/-- Witness for C3 at the four inputs the claim lists: `x = "1.5"`,
`x = "-0.1"`, a blank name, and the non-numeric coordinate text `"abc"`. -/
theorem add_item_reject_atomic_witness :
    ((addItem ⟨[], none, "p", ""⟩ "T" "" "pen" "1.5" "0.5" "blue").2 ≠ .ok ∧
      (addItem ⟨[], none, "p", ""⟩ "T" "" "pen" "1.5" "0.5" "blue").1 = ⟨[], none, "p", ""⟩) ∧
    ((addItem ⟨[], none, "p", ""⟩ "T" "" "pen" "-0.1" "0.5" "blue").2 ≠ .ok ∧
      (addItem ⟨[], none, "p", ""⟩ "T" "" "pen" "-0.1" "0.5" "blue").1 = ⟨[], none, "p", ""⟩) ∧
    ((addItem ⟨[], none, "p", ""⟩ "T" "" "  " "0.5" "0.5" "blue").2 ≠ .ok ∧
      (addItem ⟨[], none, "p", ""⟩ "T" "" "  " "0.5" "0.5" "blue").1 = ⟨[], none, "p", ""⟩) ∧
    ((addItem ⟨[], none, "p", ""⟩ "T" "" "pen" "abc" "0.5" "blue").2 ≠ .ok ∧
      (addItem ⟨[], none, "p", ""⟩ "T" "" "pen" "abc" "0.5" "blue").1 = ⟨[], none, "p", ""⟩) :=
  ⟨add_item_reject_atomic _ _ _ _ _ _ _
      (Or.inr (Or.inr (Or.inr (Or.inl ⟨3 / 2, by decide, Or.inr (by decide)⟩)))),
   add_item_reject_atomic _ _ _ _ _ _ _
      (Or.inr (Or.inr (Or.inr (Or.inl ⟨-(1 / 10), by decide, Or.inl (by decide)⟩)))),
   add_item_reject_atomic _ _ _ _ _ _ _ (Or.inr (Or.inr (Or.inl (by decide)))),
   add_item_reject_atomic _ _ _ _ _ _ _ (Or.inl (by decide))⟩

/-- C4: after any successful save, `last_loaded_mtime` equals the
modification time of the just-written file, and an immediate poll of the
unmodified file system reports no change (self-echo suppression). -/
theorem save_suppresses_poll (fs : FS) (st : AppState) (m : Rat) :
    (saveItems fs st m).2.last_loaded_mtime = some m ∧
    (∃ e, (saveItems fs st m).1 ((saveItems fs st m).2.path_var) = some e ∧ e.mtime = m) ∧
    pollFileChange (saveItems fs st m).1 (saveItems fs st m).2
      = ((saveItems fs st m).2, .unchanged) := by
  refine ⟨rfl, ⟨⟨.json (.arr (st.items.map (fun it => .obj it.to_dict))), m⟩,
    by simp [saveItems], rfl⟩, ?_⟩
  simp [pollFileChange, saveItems]

/-- C5: the poll triggers a reload only when the observed modification time
is strictly later than a present baseline, and a missing file is reported
as unchanged (the branch raises nothing: it returns normally). -/
theorem poll_change_strictly_later :
    (∀ (fs : FS) (st : AppState) (m : Rat), st.last_loaded_mtime = some m →
      ∀ lo, (pollFileChange fs st).2 = .reloaded lo →
        ∃ e, fs st.path_var = some e ∧ m < e.mtime) ∧
    (∀ (fs : FS) (st : AppState), fs st.path_var = none →
      pollFileChange fs st = (st, .unchanged)) := by
  constructor
  · intro fs st m hm lo hpoll
    cases hfs : fs st.path_var with
    | none => simp [pollFileChange, hfs] at hpoll
    | some e =>
      refine ⟨e, rfl, ?_⟩
      by_cases hlt : m < e.mtime
      · exact hlt
      · simp [pollFileChange, hfs, hm, hlt] at hpoll
  · intro fs st hfs
    simp [pollFileChange, hfs]

/-- A file system with one fresh file, for the C5 witness. -/
def freshFS : FS := fun p =>
  if p = "data/items.json" then some ⟨.json (.arr []), 2⟩ else none

/-- An empty file system, for the C5 and C10 witnesses. -/
def emptyFS : FS := fun _ => none

/-- Witness for C5: a poll that reloaded implies a strictly later mtime at
a concrete state (baseline 1, file mtime 2), and a poll against a missing
path at a concrete state returns unchanged. -/
theorem poll_change_strictly_later_witness :
    (∃ e, freshFS "data/items.json" = some e ∧ (1 : Rat) < e.mtime) ∧
    pollFileChange emptyFS ⟨[], some 1, "data/items.json", ""⟩
      = (⟨[], some 1, "data/items.json", ""⟩, .unchanged) :=
  ⟨poll_change_strictly_later.1 freshFS ⟨[], some 1, "data/items.json", ""⟩ 1 rfl
      (.loaded 0) (by decide),
   poll_change_strictly_later.2 emptyFS ⟨[], some 1, "data/items.json", ""⟩ rfl⟩

/-- C6: with an empty collection the external chat capability is never
invoked, and whenever the send actually proceeds (client configured,
non-blank question) the transcript receives the canned "no items" reply
instead. -/
theorem empty_items_short_circuit (hasClient : Bool) (q : String)
    (askFn : List Message → Except String String) :
    (sendQuestion hasClient [] q askFn).askInvoked = false ∧
    (hasClient = true → pyStrip q ≠ "" →
      (sendQuestion hasClient [] q askFn).chatAppends
        = ["You: " ++ pyStrip q ++ "\n", noItemsReply]) := by
  cases hasClient with
  | false => simp [sendQuestion]
  | true => by_cases hq : pyStrip q = "" <;> simp [sendQuestion, hq]

/-- Witness for C6 at a concrete question and a concrete external
capability. -/
theorem empty_items_short_circuit_witness :
    (sendQuestion true [] "where is the cup?" (fun _ => .ok "resp")).askInvoked = false ∧
    (sendQuestion true [] "where is the cup?" (fun _ => .ok "resp")).chatAppends
      = ["You: where is the cup?\n", noItemsReply] := by
  have h := empty_items_short_circuit true "where is the cup?" (fun _ => .ok "resp")
  exact ⟨h.1, h.2 rfl (by decide)⟩

/-- C7 counterexample: the message "quota" contains neither the substring
"insufficient_quota" nor "401", so by the claim it should pass through
unchanged; `_friendly_error` instead replaces it with the canned quota
message. -/
theorem friendly_error_pass_through_cex :
    pyIn "insufficient_quota" "quota" = false ∧
    pyIn "401" "quota" = false ∧
    friendlyError "quota" ≠ "quota" := by
  decide

/-- C7 as amended: classification is on the lowercased message; a message
containing "insufficient_quota" or "quota" maps to the quota notice; one
containing neither but containing "401" or "invalid_api_key" maps to the
auth notice; one containing none of the four passes through unchanged. -/
theorem friendly_error_classes (msg : String) :
    (pyIn "insufficient_quota" (pyLower msg) = true ∨ pyIn "quota" (pyLower msg) = true →
      friendlyError msg = quotaMsg) ∧
    (pyIn "insufficient_quota" (pyLower msg) = false → pyIn "quota" (pyLower msg) = false →
      pyIn "401" (pyLower msg) = true ∨ pyIn "invalid_api_key" (pyLower msg) = true →
      friendlyError msg = authMsg) ∧
    (pyIn "insufficient_quota" (pyLower msg) = false → pyIn "quota" (pyLower msg) = false →
      pyIn "401" (pyLower msg) = false → pyIn "invalid_api_key" (pyLower msg) = false →
      friendlyError msg = msg) := by
  refine ⟨?_, ?_, ?_⟩
  · rintro (h | h) <;> simp [friendlyError, h]
  · intro h1 h2 h; rcases h with h | h <;> simp [friendlyError, h1, h2, h]
  · intro h1 h2 h3 h4; simp [friendlyError, h1, h2, h3, h4]

/-- Witness for C7 at three concrete messages, one per class. -/
theorem friendly_error_classes_witness :
    friendlyError "Error: insufficient_quota" = quotaMsg ∧
    friendlyError "HTTP 401 Unauthorized" = authMsg ∧
    friendlyError "connection reset" = "connection reset" :=
  ⟨(friendly_error_classes "Error: insufficient_quota").1 (Or.inl (by decide)),
   (friendly_error_classes "HTTP 401 Unauthorized").2.1 (by decide) (by decide)
      (Or.inl (by decide)),
   (friendly_error_classes "connection reset").2.2 (by decide) (by decide) (by decide)
      (by decide)⟩

/-- C9 counterexample: for a two-line key file the code resolves the whole
stripped file content as the key, not the first line the claim describes
(`specFileKey` is the spec's reading). -/
theorem resolve_key_not_first_line :
    resolveKey none (some "key1\nkey2") = some "key1\nkey2" ∧
    specFileKey "key1\nkey2" = some "key1" ∧
    ("key1\nkey2" : String) ≠ "key1" := by
  decide

/-- C9 as amended: the key is the environment variable when that is set
non-empty; otherwise the entire sidecar file content stripped of
surrounding whitespace when non-empty; when no client results, every send
fails fast with the disabled modal and never invokes the capability. -/
theorem resolve_key_amended :
    (∀ (k : String) (f : Option String), k ≠ "" → resolveKey (some k) f = some k) ∧
    (∀ t : String, resolveKey none (some t)
      = if pyStrip t = "" then none else some (pyStrip t)) ∧
    resolveKey none none = none ∧
    (∀ (items : List DeskItem) (q : String) (askFn : List Message → Except String String),
      (sendQuestion false items q askFn).askInvoked = false ∧
      (sendQuestion false items q askFn).modal = some disabledMsg) := by
  refine ⟨?_, fun t => rfl, rfl, ?_⟩
  · intro k f hk; simp [resolveKey, hk]
  · intro items q askFn; exact ⟨rfl, rfl⟩

/-- Witness for C9 as amended, at a concrete environment, file, and send. -/
theorem resolve_key_amended_witness :
    resolveKey (some "sk-env") (some "sk-file") = some "sk-env" ∧
    (sendQuestion false [] "anything" (fun _ => .ok "r")).askInvoked = false ∧
    (sendQuestion false [] "anything" (fun _ => .ok "r")).modal = some disabledMsg :=
  ⟨resolve_key_amended.1 "sk-env" (some "sk-file") (by decide),
   (resolve_key_amended.2.2.2 [] "anything" (fun _ => .ok "r")).1,
   (resolve_key_amended.2.2.2 [] "anything" (fun _ => .ok "r")).2⟩

/-- A file system whose one file fails JSON parsing, for the C10 witness. -/
def badJsonFS : FS := fun p =>
  if p = "items.json" then some ⟨.malformed, 5⟩ else none

/-- C10: a load attempt that fails before element conversion — missing path
or a JSON parse failure — leaves the whole state (items, baseline mtime,
text variables) exactly as it was. -/
theorem load_failure_atomic :
    (∀ (fs : FS) (st : AppState) (se ss : Bool),
      fs st.path_var = none → (loadFromPath fs st se ss).state = st) ∧
    (∀ (fs : FS) (st : AppState) (se ss : Bool) (m : Rat),
      fs st.path_var = some ⟨.malformed, m⟩ → (loadFromPath fs st se ss).state = st) := by
  constructor
  · intro fs st se ss h; simp [loadFromPath, h]
  · intro fs st se ss m h; simp [loadFromPath, h]

/-- Witness for C10 at a concrete missing path and a concrete unparsable
file, with a non-trivial prior state. -/
theorem load_failure_atomic_witness :
    (loadFromPath emptyFS ⟨[⟨"t", "a", 0, 0, "c"⟩], some 3, "items.json", "s"⟩ true true).state
      = ⟨[⟨"t", "a", 0, 0, "c"⟩], some 3, "items.json", "s"⟩ ∧
    (loadFromPath badJsonFS ⟨[⟨"t", "a", 0, 0, "c"⟩], some 3, "items.json", "s"⟩ true true).state
      = ⟨[⟨"t", "a", 0, 0, "c"⟩], some 3, "items.json", "s"⟩ :=
  ⟨load_failure_atomic.1 emptyFS ⟨[⟨"t", "a", 0, 0, "c"⟩], some 3, "items.json", "s"⟩
      true true rfl,
   load_failure_atomic.2 badJsonFS ⟨[⟨"t", "a", 0, 0, "c"⟩], some 3, "items.json", "s"⟩
      true true 5 rfl⟩

/-- Joining a non-empty tail inserts one newline after the head, exactly as
Python `"\n".join`. -/
theorem joinLines_cons (s : String) (l : List String) (hl : l ≠ []) :
    joinLines (s :: l) = s ++ "\n" ++ joinLines l := by
  cases l with
  | nil => exact absurd rfl hl
  | cons t ts => rfl

/-- The enumerated line of the item at position `pre.length` (0-based)
occurs inside the joined enumeration, with surroundings. -/
theorem joinLines_split :
    ∀ (pre : List DeskItem) (k : Nat) (it : DeskItem) (post : List DeskItem),
    ∃ a b, joinLines (((pre ++ it :: post).enumFrom k).map (fun p => itemLine p.1 p.2))
      = a ++ itemLine (k + pre.length) it ++ b := by
  intro pre
  induction pre with
  | nil =>
    intro k it post
    cases post with
    | nil => exact ⟨"", "", by simp [joinLines]⟩
    | cons t ts =>
      refine ⟨"", "\n" ++ joinLines (((t :: ts).enumFrom (k + 1)).map
        (fun p => itemLine p.1 p.2)), ?_⟩
      rw [List.nil_append, List.enumFrom_cons, List.map_cons,
        joinLines_cons _ _ (by simp), Nat.add_zero]
      simp [String.append_assoc]
  | cons p pre ih =>
    intro k it post
    obtain ⟨a, b, hab⟩ := ih (k + 1) it post
    refine ⟨itemLine k p ++ "\n" ++ a, b, ?_⟩
    rw [List.cons_append, List.enumFrom_cons, List.map_cons,
      joinLines_cons _ _ (by simp), hab]
    have hk : k + 1 + pre.length = k + (p :: pre).length := by
      simp [List.length_cons, Nat.add_assoc, Nat.add_comm 1]
    rw [hk]
    simp [String.append_assoc]

/-- The item one loaded from `{"name":"pen","x":0.5,"y":0.5,"color":"blue"}`. -/
def penItem : DeskItem := ⟨"", "pen", 1/2, 1/2, "blue"⟩

set_option maxHeartbeats 2000000 in
/-- Evaluating the end-to-end scenario: converting the one-object array
yields exactly `penItem`, and the built user message contains the literal
substring the spec names. -/
theorem pen_scenario_eval :
    convertData (.arr [.obj [("name", .str "pen"), ("x", .num (1/2)),
        ("y", .num (1/2)), ("color", .str "blue")]]) = some [penItem] ∧
      pyIn "pen | color: blue | pos: (0.500, 0.500)"
        (userContent [penItem] "what color is the pen?") = true := by
  decide

/-- The line of the item at 0-based position `pre.length` appears in the
user message with 1-based index `pre.length + 1`, in collection order. -/
theorem userContent_split (q : String) (pre : List DeskItem) (it : DeskItem)
    (post : List DeskItem) :
    ∃ a b, userContent (pre ++ it :: post) q
      = a ++ itemLine (pre.length + 1) it ++ b := by
  obtain ⟨a, b, hab⟩ := joinLines_split pre 1 it post
  refine ⟨"Current desk items (coords 0-1, origin top-left):\n" ++ a,
          b ++ "\n\nQuestion: " ++ q, ?_⟩
  have hu : userContent (pre ++ it :: post) q
      = "Current desk items (coords 0-1, origin top-left):\n"
        ++ joinLines (((pre ++ it :: post).enumFrom 1).map (fun p => itemLine p.1 p.2))
        ++ "\n\nQuestion: " ++ q := by
    rw [userContent]
    cases pre with
    | nil => (rw [List.nil_append, itemsDesc]; simp)
    | cons x xs => (rw [List.cons_append, itemsDesc]; simp)
  rw [hu, hab, Nat.add_comm 1 pre.length]
  simp [String.append_assoc]

/-- The user message always ends with the literal question text after the
fixed `Question:` marker. -/
theorem userContent_question (items : List DeskItem) (q : String) :
    ∃ a, userContent items q = a ++ "\n\nQuestion: " ++ q :=
  ⟨"Current desk items (coords 0-1, origin top-left):\n" ++ itemsDesc items, by
    rw [userContent]⟩

/-- C8: the built user message enumerates the items in collection order
with 1-based indices — the item preceded by `pre` carries index
`pre.length + 1` and its line is `itemLine`, the code's
`index. name | color: ... | pos: (x, y) | placed: timestamp` format with
three-decimal coordinates — the message ends with the literal question
text, and for the single pen item the message contains the literal
substring `pen | color: blue | pos: (0.500, 0.500)`. -/
theorem prompt_format :
    (∀ (q : String) (pre : List DeskItem) (it : DeskItem) (post : List DeskItem),
      ∃ a b, userContent (pre ++ it :: post) q
        = a ++ itemLine (pre.length + 1) it ++ b) ∧
    (∀ (items : List DeskItem) (q : String),
      ∃ a, userContent items q = a ++ "\n\nQuestion: " ++ q) ∧
    (convertData (.arr [.obj [("name", .str "pen"), ("x", .num (1/2)),
        ("y", .num (1/2)), ("color", .str "blue")]]) = some [penItem] ∧
      pyIn "pen | color: blue | pos: (0.500, 0.500)"
        (userContent [penItem] "what color is the pen?") = true) :=
  ⟨userContent_split, userContent_question, pen_scenario_eval⟩

end DeskViewer
